import Mathlib

/- Verification development for the secure extension sandbox of
src/pytask/pytask.py (lines 1496 to 1794): the ExtensionValidator AST
walker, the safe builtins catalogue, the _safe_print output primitive, the
_resource_limits context manager, and the two execution strategies of
SecureExtensionSandbox (_execute_inline and _execute_subprocess) behind
execute_extension. Python strings are Lean String, mutable state is passed
explicitly, and the semantics of running an already validated snippet is an
oracle parameter (ExecSem), since full Python evaluation is outside the
model; all control flow around that oracle is translated from the source. -/

/-- Expression nodes of the Python AST fragment the validator inspects.
Call argument lists are folded to binary application, which preserves the
visitor reachability of every child node. -/
inductive PyExpr where
  | name (id : String)
  | attrAccess (value : PyExpr) (attr : String)
  | constant
  | call (func : PyExpr) (arg : PyExpr)
  | binOp (left : PyExpr) (right : PyExpr)

/-- Statement nodes of the fragment: the two import forms, a single target
assignment, and a bare expression statement. -/
inductive PyStmt where
  | importStmt (module : String)
  | importFrom (module : String) (name : String)
  | assign (target : String) (value : PyExpr)
  | exprStmt (value : PyExpr)

/-- A parsed snippet is its statement list. -/
abbrev PyModule := List PyStmt

/-- FORBIDDEN_NAMES of ExtensionValidator (pytask.py lines 1758 to 1763). -/
def FORBIDDEN_NAMES : List String :=
  ["__import__", "eval", "exec", "compile", "open", "input",
   "breakpoint", "help", "dir", "globals", "locals", "vars",
   "setattr", "delattr", "__dict__", "__class__", "__bases__",
   "__subclasses__", "__code__", "__closure__"]

/-- FORBIDDEN_MODULES of ExtensionValidator (lines 1765 to 1771). The set
is declared in the source but referenced by no visitor method, so it never
influences validation. -/
def FORBIDDEN_MODULES : List String :=
  ["os", "sys", "subprocess", "socket", "requests", "urllib",
   "http", "ftplib", "telnetlib", "ssl", "select", "selectors",
   "asyncio", "threading", "multiprocessing", "concurrent",
   "ctypes", "cffi", "importlib", "pkgutil", "inspect",
   "gc", "weakref", "pickle", "marshal", "shelve"]

/-- Does the character list p occur as a contiguous run at the head of s. -/
def headMatches : List Char → List Char → Bool
  | [], _ => true
  | _ :: _, [] => false
  | p :: ps, c :: cs => p == c && headMatches ps cs

/-- Python substring membership, p in s, over character lists. -/
def containsSub (p s : List Char) : Bool :=
  match s with
  | [] => headMatches p []
  | _ :: cs => headMatches p s || containsSub p cs

/-- Python str.startswith over the character lists of the two strings. -/
def pyStartsWith (s p : String) : Bool := headMatches p.data s.data

/-- Single quote character, used inside the validator error strings. -/
def squote : String := String.singleton (Char.ofNat 39)

/-- Error message of visit_Name and of the attribute deny check. -/
def accessMsg (id : String) : String :=
  "Access to " ++ squote ++ id ++ squote ++ " is not allowed"

/-- Error message of visit_Import and visit_ImportFrom. -/
def importMsg : String := "Import statements are not allowed in extensions"

/-- Error message of the private attribute check in visit_Attribute. -/
def privateAttrMsg : String := "Access to private attributes is not allowed"

/-- Sequencing of two validator steps: the first ValueError raised wins. -/
def exceptSeq (a b : Except String Unit) : Except String Unit :=
  match a with
  | Except.error e => Except.error e
  | Except.ok _ => b

/-- visit_Name: reject identifiers on the deny list. -/
def checkName (id : String) : Except String Unit :=
  if FORBIDDEN_NAMES.contains id then Except.error (accessMsg id)
  else Except.ok ()

/-- Visitor over expressions: visit_Name, visit_Attribute and the
generic_visit recursion, in source order (a node before its children). -/
def validateExpr : PyExpr → Except String Unit
  | PyExpr.name id => checkName id
  | PyExpr.attrAccess v a =>
      if pyStartsWith a "_" then Except.error privateAttrMsg
      else if FORBIDDEN_NAMES.contains a then Except.error (accessMsg a)
      else validateExpr v
  | PyExpr.constant => Except.ok ()
  | PyExpr.call f x => exceptSeq (validateExpr f) (validateExpr x)
  | PyExpr.binOp l r => exceptSeq (validateExpr l) (validateExpr r)

/-- Visitor over statements: visit_Import and visit_ImportFrom reject, the
rest recurse into children; an assignment target is a Name node, so
visit_Name applies to it before the value is visited. -/
def validateStmt : PyStmt → Except String Unit
  | PyStmt.importStmt _ => Except.error importMsg
  | PyStmt.importFrom _ _ => Except.error importMsg
  | PyStmt.assign t v => exceptSeq (checkName t) (validateExpr v)
  | PyStmt.exprStmt v => validateExpr v

/-- One validator pass over the parsed snippet, statements in order, the
first ValueError propagating. -/
def validateModule : PyModule → Except String Unit
  | [] => Except.ok ()
  | s :: rest => exceptSeq (validateStmt s) (validateModule rest)

/-- Catalogue built by _create_safe_builtins (lines 1510 to 1550): each key
maps to some tag naming the host function the source binds, and to none for
the keys the source explicitly sets to None. -/
def safeBuiltins : List (String × Option String) :=
  [("int", some "int"), ("float", some "float"), ("str", some "str"),
   ("bool", some "bool"), ("list", some "list"), ("tuple", some "tuple"),
   ("dict", some "dict"), ("set", some "set"),
   ("frozenset", some "frozenset"), ("bytes", some "bytes"),
   ("bytearray", some "bytearray"),
   ("len", some "len"), ("range", some "range"),
   ("enumerate", some "enumerate"), ("zip", some "zip"),
   ("map", some "map"), ("filter", some "filter"),
   ("sorted", some "sorted"), ("reversed", some "reversed"),
   ("sum", some "sum"), ("min", some "min"), ("max", some "max"),
   ("abs", some "abs"), ("round", some "round"), ("pow", some "pow"),
   ("all", some "all"), ("any", some "any"),
   ("chr", some "chr"), ("ord", some "ord"),
   ("isinstance", some "isinstance"), ("issubclass", some "issubclass"),
   ("hasattr", some "hasattr"), ("getattr", some "getattr"),
   ("type", some "type"),
   ("print", some "_safe_print"),
   ("__import__", none), ("eval", none), ("exec", none),
   ("compile", none), ("open", none), ("input", none),
   ("breakpoint", none), ("help", none), ("dir", none),
   ("globals", none), ("locals", none), ("vars", none)]

/-- Names the source maps to an explicit None sentinel in safe_builtins. -/
def BLOCKED_SENTINELS : List String :=
  ["__import__", "eval", "exec", "compile", "open", "input",
   "breakpoint", "help", "dir", "globals", "locals", "vars"]

/-- Output size cap used by _safe_print (line 1555). -/
def OUTPUT_CAP : Nat := 1000

/-- The _safe_print primitive: join the arguments with a space and, once
the cap is exceeded, keep 997 characters and append an ellipsis marker. -/
def safePrint (args : List String) : String :=
  let output := String.intercalate " " args
  if OUTPUT_CAP < output.length then String.mk (output.data.take 997) ++ "..."
  else output

/-- The capture_print closure both execution paths install in place of
print: join the arguments with a space, with no truncation. -/
def capturePrint (args : List String) : String := String.intercalate " " args

/-- One rlimit pair (soft, hard) as handled by getrlimit and setrlimit. -/
structure RLimit where
  soft : Nat
  hard : Nat
deriving DecidableEq

/-- The three process wide ceilings touched by _resource_limits. -/
structure RLimitState where
  dataSeg : RLimit
  fsize : RLimit
  nofile : RLimit
deriving DecidableEq

/-- Which ceiling a setrlimit call addresses. -/
inductive LimKind where
  | dataSeg
  | fsize
  | nofile
deriving DecidableEq

/-- One setrlimit call: the ceiling and the pair it is set to. -/
abbrev LimSet := LimKind × RLimit

/-- Effect of one setrlimit call on the process wide limiter state. -/
def applyLim (st : RLimitState) (s : LimSet) : RLimitState :=
  match s.1 with
  | LimKind.dataSeg => RLimitState.mk s.2 st.fsize st.nofile
  | LimKind.fsize => RLimitState.mk st.dataSeg s.2 st.nofile
  | LimKind.nofile => RLimitState.mk st.dataSeg st.fsize s.2

/-- Folding a setrlimit call sequence over the limiter state. -/
def runSets (st : RLimitState) (l : List LimSet) : RLimitState :=
  l.foldl applyLim st

/-- MEMORY_LIMIT_MB class constant. -/
def MEMORY_LIMIT_MB : Nat := 50

/-- MAX_FILE_SIZE_MB class constant. -/
def MAX_FILE_SIZE_MB : Nat := 10

/-- MAX_OPEN_FILES class constant. -/
def MAX_OPEN_FILES : Nat := 10

/-- EXECUTION_TIMEOUT_SECONDS class constant. -/
def EXECUTION_TIMEOUT_SECONDS : Nat := 5

/-- The three setrlimit calls performed on entry to _resource_limits
(lines 1566 to 1580), in source order. -/
def sandboxSets : List LimSet :=
  [(LimKind.dataSeg,
    RLimit.mk (MEMORY_LIMIT_MB * 1024 * 1024) (MEMORY_LIMIT_MB * 1024 * 1024)),
   (LimKind.fsize,
    RLimit.mk (MAX_FILE_SIZE_MB * 1024 * 1024) (MAX_FILE_SIZE_MB * 1024 * 1024)),
   (LimKind.nofile, RLimit.mk MAX_OPEN_FILES MAX_OPEN_FILES)]

/-- The restore loop of the finally block (lines 1584 to 1588), iterating
original_limits in insertion order; each saved value is the getrlimit
result taken just before the corresponding set, which for this call order
is the pre invocation value of that ceiling. -/
def restoreSets (orig : RLimitState) : List LimSet :=
  [(LimKind.dataSeg, orig.dataSeg), (LimKind.fsize, orig.fsize),
   (LimKind.nofile, orig.nofile)]

/-- A JSON style value: the results and context entries that survive the
json round trip of the subprocess handshake. -/
inductive JValue where
  | null
  | bool (b : Bool)
  | num (n : Int)
  | str (s : String)
  | arr (xs : List JValue)
  | obj (fields : List (String × JValue))

/-- The caller supplied execution context mapping. -/
abbrev PyContext := List (String × JValue)

/-- Outcome triple of execute_extension: succeeded, result, and the output
or error text (the source reuses the one string slot for both). -/
abbrev ExtOutcome := Bool × Option JValue × String

/-- Possible outcomes of running one already validated snippet under the
restricted namespace: normal completion with the result binding and the
list of print calls (each call its argument list), a raised exception, or
running past the deadline. -/
inductive ExecResult where
  | ok (result : Option JValue) (printCalls : List (List String))
  | exn (msg : String)
  | hang

/-- Oracle for the Python evaluation of a snippet. Both strategies exec the
same snippet against the same restricted builtins, so one oracle describes
both; it is a function, so a snippet without external side effects behaves
identically on repeated runs. -/
structure ExecSem where
  run : PyModule → PyContext → ExecResult

/-- Failure message head used by both strategies. -/
def extErrPre : String := "Extension error: "

/-- Timeout message of the inline path: str of the TimeoutError raised by
_timeout_handler (line 1595), returned at line 1746. -/
def inlineTimeoutMessage : String :=
  "Extension execution exceeded " ++ toString EXECUTION_TIMEOUT_SECONDS
    ++ "s limit"

/-- Timeout message of the subprocess path, from the TimeoutExpired branch
of _execute_subprocess (line 1659). -/
def subprocessTimeoutMessage : String :=
  "Extension execution timeout (" ++ toString EXECUTION_TIMEOUT_SECONDS
    ++ "s)"

/-- What the parent can observe of the child run: exit 0 with a parsed
JSON message, exit 0 with unparsable standard output, a nonzero exit with
the standard error text, expiry of the wait deadline, or an exception
raised by launching the child itself (the generic except branch at lines
1660 to 1661). -/
inductive ChildObs where
  | json (result : Option JValue) (output : String)
  | badStdout (raw : String)
  | failed (stderr : String)
  | timedOut
  | launchFailure (msg : String)

/-- Standard error text of the child. _generate_subprocess_wrapper embeds
repr(self.safe_builtins) into the script it emits (line 1683), and the
repr of that dict renders the host bindings in angle bracket form, which
is not Python syntax; the interpreter therefore rejects the wrapper script
itself with a SyntaxError and exits 1 with the traceback on standard
error. The concrete traceback text varies with the scratch directory path;
this constant stands for it, and the theorems below depend on no more of
its content than that it is a SyntaxError diagnostic rather than one of
the validator or timeout sentences. -/
def wrapperSyntaxStderr : String := "SyntaxError: invalid syntax"

/-- Child side of the handshake, from _generate_subprocess_wrapper (lines
1663 to 1711). Because the emitted script is itself a SyntaxError, the
child exits 1 with the traceback on standard error, for every snippet,
before any snippet text, validator pass or alarm is reached (the wrapper
contains no ExtensionValidator pass to run anyway). The exit 0 JSON
observation, the unparsable output observation and the wait timeout are
unreachable from this child: the argument records what executing the
snippet would have produced, and the child never consults it. -/
def childObsOf (_r : ExecResult) : ChildObs :=
  ChildObs.failed wrapperSyntaxStderr

/-- Parent side result channel of _execute_subprocess (lines 1648 to
1661): parse the JSON on exit 0, report unparsable output or the standard
error text as failures, map a wait timeout to the timeout message, and
wrap a launch exception in the Subprocess execution failed text. -/
def subprocessChannel : ChildObs → ExtOutcome
  | ChildObs.json r out => (true, r, out)
  | ChildObs.badStdout raw => (false, none, "Invalid output: " ++ raw)
  | ChildObs.failed err => (false, none, extErrPre ++ err)
  | ChildObs.timedOut => (false, none, subprocessTimeoutMessage)
  | ChildObs.launchFailure msg =>
      (false, none, "Subprocess execution failed: " ++ msg)

/-- The _execute_subprocess strategy: materialize the wrapper and context
files in the scratch directory, launch the child, and normalize what the
parent observes through the result channel. No validator runs on this
path, neither in the parent nor in the generated wrapper, and with the
broken wrapper the child fails identically for every snippet. -/
def executeSubprocess (sem : ExecSem) (code : PyModule) (ctx : PyContext) :
    ExtOutcome :=
  subprocessChannel (childObsOf (sem.run code ctx))

/-- The _execute_inline strategy (lines 1713 to 1753): arm the alarm, set
up the capture buffer and restricted namespace, then inside the
_resource_limits scope parse, validate and exec; the TimeoutError handler
returns the bare message, the generic handler returns the Extension error
text, and a validation ValueError reaches the generic handler before exec
runs, so the oracle is never consulted for a rejected snippet. -/
def executeInline (sem : ExecSem) (code : PyModule) (ctx : PyContext) :
    ExtOutcome :=
  match validateModule code with
  | Except.error r => (false, none, extErrPre ++ r)
  | Except.ok _ =>
    match sem.run code ctx with
    | ExecResult.ok r prints =>
        (true, r, String.intercalate "\n" (prints.map capturePrint))
    | ExecResult.exn msg => (false, none, extErrPre ++ msg)
    | ExecResult.hang => (false, none, inlineTimeoutMessage)

/-- The strategy choice of _should_use_subprocess (line 1610). -/
def shouldUseSubprocess (isWin32 : Bool) : Bool := !isWin32

/-- Mutable sandbox state: the execution_count counter, the only instance
field execute_extension updates. -/
structure SandboxState where
  executionCount : Nat
deriving DecidableEq

/-- execute_extension including its state update (lines 1597 to 1605):
increment execution_count, then dispatch to the chosen strategy. -/
def executeExtensionSt (sem : ExecSem) (isWin32 : Bool) (st : SandboxState)
    (code : PyModule) (ctx : PyContext) : ExtOutcome × SandboxState :=
  let next := SandboxState.mk (st.executionCount + 1)
  if shouldUseSubprocess isWin32 then (executeSubprocess sem code ctx, next)
  else (executeInline sem code ctx, next)

/-- execute_extension as seen by a caller who ignores the counter. -/
def executeExtension (sem : ExecSem) (isWin32 : Bool) (code : PyModule)
    (ctx : PyContext) : ExtOutcome :=
  (executeExtensionSt sem isWin32 (SandboxState.mk 0) code ctx).1

/-- Sequence of setrlimit calls one run of _resource_limits performs around
a body with the given outcome: none on win32; otherwise the three sandbox
ceilings on entry and, in the finally block on every exit path (normal
return, a raised exception, or the alarm driven TimeoutError), the three
saved originals. -/
def resourceLimitsTrace (isWin32 : Bool) (orig : RLimitState)
    (body : ExecResult) : List LimSet :=
  if isWin32 then []
  else
    match body with
    | ExecResult.ok _ _ => sandboxSets ++ restoreSets orig
    | ExecResult.exn _ => sandboxSets ++ restoreSets orig
    | ExecResult.hang => sandboxSets ++ restoreSets orig

/-- Setrlimit calls one execute_extension invocation performs: the
subprocess strategy touches no parent limits, the inline strategy runs
_resource_limits around parse, validation and exec. -/
def invocationLimiterTrace (isWin32 : Bool) (orig : RLimitState)
    (body : ExecResult) : List LimSet :=
  if shouldUseSubprocess isWin32 then []
  else resourceLimitsTrace isWin32 orig body

/-- Limiter state at the moment the validator runs inside _execute_inline:
the with statement enters _resource_limits before ast.parse and
validator.visit (lines 1734 to 1738), so on a platform with rlimits the
three sandbox ceilings are already in force when validation rejects. -/
def limiterStateAtValidation (isWin32 : Bool) (orig : RLimitState) :
    RLimitState :=
  if isWin32 then orig else runSets orig sandboxSets

/-- The sensitive substrings scrubbed by _execute_subprocess (line 1633). -/
def SENSITIVE : List String :=
  ["KEY", "TOKEN", "SECRET", "PASSWORD", "API", "CREDENTIAL"]

/-- The deletion test of the scrub loop: some sensitive substring occurs in
the uppercased variable name. -/
def isSensitiveName (name : String) : Bool :=
  SENSITIVE.any (fun p => containsSub p.data (name.data.map Char.toUpper))

/-- Assignment env[k] = v on an association list environment. -/
def setVar (env : List (String × String)) (k v : String) :
    List (String × String) :=
  if env.any (fun kv => kv.1 == k) then
    env.map (fun kv => if kv.1 == k then (k, v) else kv)
  else env ++ [(k, v)]

/-- Environment preparation of _execute_subprocess (lines 1625 to 1635):
copy the parent environment, pin TMPDIR and HOME to the scratch directory,
clear PATH, then delete every variable whose name passes the sensitive
test. -/
def prepareChildEnv (parent : List (String × String)) (tmpdir : String) :
    List (String × String) :=
  List.filter (fun kv => !isSensitiveName kv.1)
    (setVar (setVar (setVar parent "TMPDIR" tmpdir) "HOME" tmpdir) "PATH" "")

/-- Credential shaped name as worded in the claim: the name contains key,
token, secret, password or credential, case insensitively. Stated from the
spec wording, for comparison with the source scrub predicate. -/
def credentialShapedClaim (name : String) : Bool :=
  (["KEY", "TOKEN", "SECRET", "PASSWORD", "CREDENTIAL"] : List String).any
    (fun p => containsSub p.data (name.data.map Char.toUpper))

/-- Import statement test for a single statement node. -/
def stmtIsImport : PyStmt → Bool
  | PyStmt.importStmt _ => true
  | PyStmt.importFrom _ _ => true
  | _ => false

/-- Does the snippet contain an import style statement. -/
def containsImportB (m : PyModule) : Bool := m.any stmtIsImport

/-- Claim condition on expressions: a deny listed identifier or an
attribute whose name starts with an underscore. -/
def exprHasClaimViolation : PyExpr → Bool
  | PyExpr.name id => FORBIDDEN_NAMES.contains id
  | PyExpr.attrAccess v a => pyStartsWith a "_" || exprHasClaimViolation v
  | PyExpr.constant => false
  | PyExpr.call f x => exprHasClaimViolation f || exprHasClaimViolation x
  | PyExpr.binOp l r => exprHasClaimViolation l || exprHasClaimViolation r

/-- Claim condition on statements: an import form, a deny listed
identifier, or an underscore attribute somewhere in the statement. -/
def stmtHasClaimViolation : PyStmt → Bool
  | PyStmt.importStmt _ => true
  | PyStmt.importFrom _ _ => true
  | PyStmt.assign t v => FORBIDDEN_NAMES.contains t || exprHasClaimViolation v
  | PyStmt.exprStmt v => exprHasClaimViolation v

/-- Claim condition on whole snippets. -/
def moduleHasClaimViolation (m : PyModule) : Bool :=
  m.any stmtHasClaimViolation

/-- Error test on a validator verdict. -/
def isErr : Except String Unit → Bool
  | Except.error _ => true
  | Except.ok _ => false

/-- Concrete snippet consisting of one import statement. -/
def importCode : PyModule := [PyStmt.importStmt "os"]

/-- Concrete snippet that only assigns the result binding a constant. -/
def benignCode : PyModule := [PyStmt.assign "result" PyExpr.constant]

/-- Oracle under which every snippet completes normally with result 7. -/
def semPermissive : ExecSem :=
  ExecSem.mk (fun _ _ => ExecResult.ok (some (JValue.num 7)) [])

/-- Oracle under which every snippet raises. -/
def semRaise : ExecSem := ExecSem.mk (fun _ _ => ExecResult.exn "boom")

/-- Oracle under which every snippet runs past the deadline. -/
def semHang : ExecSem := ExecSem.mk (fun _ _ => ExecResult.hang)

/-- A 2000 character print argument. -/
def bigArg : String := String.mk (List.replicate 2000 (Char.ofNat 97))

/-- Oracle under which the snippet performs one print call of bigArg. -/
def semBig : ExecSem := ExecSem.mk (fun _ _ => ExecResult.ok none [[bigArg]])

/-- A typical pre invocation limiter state, different from the sandbox
ceilings. -/
def origEx : RLimitState :=
  RLimitState.mk (RLimit.mk 1000000000 1000000000)
    (RLimit.mk 1000000000 1000000000) (RLimit.mk 1024 1048576)

/-- A concrete parent environment holding two credential shaped names. -/
def envEx : List (String × String) :=
  [("AWS_SECRET_ACCESS_KEY", "abc"), ("LANG", "C"), ("GITHUB_TOKEN", "t")]

/-- Concrete snippet accessing an underscore attribute. -/
def dunderCode : PyModule :=
  [PyStmt.exprStmt (PyExpr.attrAccess (PyExpr.name "x") "_secret")]

/-- Concrete snippet referencing the deny listed identifier eval. -/
def denyNameCode : PyModule := [PyStmt.exprStmt (PyExpr.name "eval")]

/-- An error verdict carries a concrete message. -/
theorem isErr_exists {x : Except String Unit} (h : isErr x = true) :
    ∃ r, x = Except.error r := by
  cases x with
  | error r => exact ⟨r, rfl⟩
  | ok _ => simp [isErr] at h

/-- Sequencing keeps an error of the first step. -/
theorem isErr_seq_left {a b : Except String Unit} (h : isErr a = true) :
    isErr (exceptSeq a b) = true := by
  cases a with
  | error e => rfl
  | ok _ => simp [isErr] at h

/-- Sequencing keeps an error of the second step. -/
theorem isErr_seq_right {a b : Except String Unit} (h : isErr b = true) :
    isErr (exceptSeq a b) = true := by
  cases a with
  | error e => rfl
  | ok _ => simpa [exceptSeq] using h

/-- A deny listed identifier or underscore attribute in an expression makes
the expression visitor raise. -/
theorem validateExpr_isErr (e : PyExpr)
    (h : exprHasClaimViolation e = true) : isErr (validateExpr e) = true := by
  induction e with
  | name id =>
      simp only [exprHasClaimViolation] at h
      have h2 : id ∈ FORBIDDEN_NAMES := by simpa using h
      simp [validateExpr, checkName, h2, isErr]
  | attrAccess v a ih =>
      simp only [exprHasClaimViolation, Bool.or_eq_true] at h
      rcases h with h | h
      · simp [validateExpr, h, isErr]
      · by_cases hs : pyStartsWith a "_"
        · simp [validateExpr, hs, isErr]
        · by_cases hc : a ∈ FORBIDDEN_NAMES
          · simp [validateExpr, hs, hc, isErr]
          · simpa [validateExpr, hs, hc] using ih h
  | constant => simp [exprHasClaimViolation] at h
  | call f x ihf ihx =>
      simp only [exprHasClaimViolation, Bool.or_eq_true] at h
      rcases h with h | h
      · exact isErr_seq_left (ihf h)
      · exact isErr_seq_right (ihx h)
  | binOp l r ihl ihr =>
      simp only [exprHasClaimViolation, Bool.or_eq_true] at h
      rcases h with h | h
      · exact isErr_seq_left (ihl h)
      · exact isErr_seq_right (ihr h)

/-- A violating statement makes the statement visitor raise. -/
theorem validateStmt_isErr (s : PyStmt)
    (h : stmtHasClaimViolation s = true) : isErr (validateStmt s) = true := by
  cases s with
  | importStmt m => rfl
  | importFrom m n => rfl
  | assign t v =>
      simp only [stmtHasClaimViolation, Bool.or_eq_true] at h
      rcases h with h | h
      · have h2 : t ∈ FORBIDDEN_NAMES := by simpa using h
        exact isErr_seq_left (by simp [checkName, h2, isErr])
      · exact isErr_seq_right (validateExpr_isErr v h)
  | exprStmt v =>
      exact validateExpr_isErr v (by simpa [stmtHasClaimViolation] using h)

/-- A violation anywhere in the snippet makes the validator pass raise. -/
theorem validateModule_isErr (m : PyModule)
    (h : moduleHasClaimViolation m = true) :
    isErr (validateModule m) = true := by
  induction m with
  | nil => simp [moduleHasClaimViolation] at h
  | cons s rest ih =>
      simp only [moduleHasClaimViolation, List.any_cons, Bool.or_eq_true] at h
      rcases h with h | h
      · exact isErr_seq_left (validateStmt_isErr s h)
      · exact isErr_seq_right (ih (by simpa [moduleHasClaimViolation] using h))

/-- An import statement is a claim violation. -/
theorem stmtIsImport_viol (s : PyStmt) (h : stmtIsImport s = true) :
    stmtHasClaimViolation s = true := by
  cases s <;> simp [stmtIsImport, stmtHasClaimViolation] at h ⊢

/-- An import style statement anywhere makes the validator pass raise. -/
theorem validateModule_isErr_of_import (m : PyModule)
    (h : containsImportB m = true) : isErr (validateModule m) = true := by
  apply validateModule_isErr
  simp only [containsImportB, List.any_eq_true] at h
  obtain ⟨s, hs, hi⟩ := h
  simp only [moduleHasClaimViolation, List.any_eq_true]
  exact ⟨s, hs, stmtIsImport_viol s hi⟩

/-- On a validator error the inline strategy returns the failure triple of
the generic exception handler, whatever the execution semantics. -/
theorem executeInline_error (sem : ExecSem) (m : PyModule) (ctx : PyContext)
    {r : String} (h : validateModule m = Except.error r) :
    executeInline sem m ctx = (false, none, extErrPre ++ r) := by
  simp [executeInline, h]

/-- On win32 execute_extension runs the inline strategy. -/
theorem executeExtension_win (sem : ExecSem) (code : PyModule)
    (ctx : PyContext) :
    executeExtension sem true code ctx = executeInline sem code ctx := rfl

/-- Off win32 execute_extension runs the subprocess strategy. -/
theorem executeExtension_unix (sem : ExecSem) (code : PyModule)
    (ctx : PyContext) :
    executeExtension sem false code ctx = executeSubprocess sem code ctx := rfl

/-- Every failing verdict of the parent result channel carries no result. -/
theorem subprocessChannel_failed_none (obs : ChildObs)
    (h : (subprocessChannel obs).1 = false) :
    (subprocessChannel obs).2.1 = none := by
  cases obs <;> simp_all [subprocessChannel]

/-- Every failing verdict of the inline strategy carries no result. -/
theorem executeInline_failed_none (sem : ExecSem) (code : PyModule)
    (ctx : PyContext) (h : (executeInline sem code ctx).1 = false) :
    (executeInline sem code ctx).2.1 = none := by
  unfold executeInline at h ⊢
  rcases hv : validateModule code with r | u
  · simp [hv]
  · rcases hr : sem.run code ctx with ⟨res, pr⟩ | msg | _
    · rw [hv, hr] at h
      simp at h
    · simp [hv, hr]
    · simp [hv, hr]

/-- The safe print primitive never returns more than the cap. -/
theorem safePrint_length_le (args : List String) :
    (safePrint args).length ≤ OUTPUT_CAP := by
  unfold safePrint
  by_cases h : OUTPUT_CAP < (String.intercalate " " args).length
  · simp only [h, if_true]
    have hlen : (String.mk ((String.intercalate " " args).data.take 997)
        ++ "...").length
        = ((String.intercalate " " args).data.take 997).length + 3 := by
      show (((String.intercalate " " args).data.take 997)
        ++ ("..." : String).data).length = _
      rw [List.length_append]
      rfl
    rw [hlen]
    have htake := List.length_take 997 (String.intercalate " " args).data
    have : ((String.intercalate " " args).data.take 997).length ≤ 997 := by
      rw [htake]; exact Nat.min_le_left _ _
    unfold OUTPUT_CAP
    omega
  · simp only [h, if_false]
    unfold OUTPUT_CAP at h ⊢
    omega

/-- Appending more characters never breaks a head match. -/
theorem headMatches_append (l m : List Char) :
    headMatches l (l ++ m) = true := by
  induction l with
  | nil => rfl
  | cons c cs ih => simp [headMatches, ih]

/-- String append acts as list append on the character data. -/
theorem strDataAppend (a b : String) : (a ++ b).data = a.data ++ b.data := rfl

/-- The Extension error wrap of any standard error text is never the
subprocess timeout message: the two differ inside the fixed head. -/
theorem extErr_wrap_ne_subprocess_timeout (s : String) :
    extErrPre ++ s ≠ subprocessTimeoutMessage := by
  intro h
  have hm : headMatches extErrPre.data subprocessTimeoutMessage.data = true := by
    rw [← h, strDataAppend]
    exact headMatches_append _ _
  exact absurd hm (by decide)

/-- The Extension error wrap of any standard error text is never the
inline timeout message either. -/
theorem extErr_wrap_ne_inline_timeout (s : String) :
    extErrPre ++ s ≠ inlineTimeoutMessage := by
  intro h
  have hm : headMatches extErrPre.data inlineTimeoutMessage.data = true := by
    rw [← h, strDataAppend]
    exact headMatches_append _ _
  exact absurd hm (by decide)

/-- Claim C1 counterexample. The claim says every import containing
snippet yields succeeded false with a validation error on both strategies,
the child re applying the static validator before executing. On the
subprocess strategy the generated wrapper embeds repr(self.safe_builtins),
which is not valid Python, so the child exits with a SyntaxError before
any validator or snippet code could run: the parent wraps the SyntaxError
traceback, which is not the validation error the inline strategy returns,
and the outcome does not depend on the snippet at all, which a re applied
validator would make impossible. Even the intended wrapper binds
the import hook to None, so an import snippet could never complete
normally in the child. -/
theorem C1_counterexample :
    (executeInline semPermissive importCode []).2.2 = extErrPre ++ importMsg ∧
    (executeSubprocess semPermissive importCode []).2.2
      ≠ extErrPre ++ importMsg ∧
    executeSubprocess semPermissive importCode []
      = executeSubprocess semPermissive benignCode [] :=
  ⟨rfl, by decide, rfl⟩

/-- Claim C1 amended: for every import containing snippet the inline
strategy returns succeeded false with the validator ValueError text and no
captured output, independently of the execution semantics. The subprocess
strategy applies no validator, in the parent or in the generated wrapper,
and never reaches the snippet at all: the wrapper script is itself a
SyntaxError, so the child exits nonzero and the parent wraps the traceback
as an Extension error, the same failing outcome for every snippet, context
and execution semantics, never the validation error. -/
theorem C1_amended (m : PyModule) (sem sem₂ : ExecSem) (m₂ : PyModule)
    (ctx ctx₂ : PyContext) (h : containsImportB m = true) :
    (∃ r, validateModule m = Except.error r ∧
      executeInline sem m ctx = (false, none, extErrPre ++ r)) ∧
    executeSubprocess sem m ctx
      = (false, none, extErrPre ++ wrapperSyntaxStderr) ∧
    executeSubprocess sem m ctx = executeSubprocess sem₂ m₂ ctx₂ := by
  refine ⟨?_, rfl, rfl⟩
  obtain ⟨r, hr⟩ := isErr_exists (validateModule_isErr_of_import m h)
  exact ⟨r, hr, executeInline_error sem m ctx hr⟩

/-- Witness for the amended claim C1 at the concrete import snippet. -/
theorem C1_amended_witness :
    containsImportB importCode = true ∧
    ((∃ r, validateModule importCode = Except.error r ∧
      executeInline semRaise importCode [] = (false, none, extErrPre ++ r)) ∧
     executeSubprocess semRaise importCode []
       = (false, none, extErrPre ++ wrapperSyntaxStderr) ∧
     executeSubprocess semRaise importCode []
       = executeSubprocess semPermissive benignCode []) :=
  ⟨by decide, C1_amended importCode semRaise semPermissive benignCode [] [] (by decide)⟩

/-- Claim C2: any snippet whose tree contains an import statement, a deny
listed identifier, or an attribute access beginning with an underscore is
rejected by the static validator with a reason string, and the inline
strategy then never consults the execution semantics, so none of the
snippet code runs. -/
theorem C2_validator_rejects (m : PyModule)
    (h : moduleHasClaimViolation m = true) :
    (∃ r, validateModule m = Except.error r) ∧
    ∀ sem₁ sem₂ : ExecSem, ∀ ctx : PyContext,
      executeInline sem₁ m ctx = executeInline sem₂ m ctx := by
  obtain ⟨r, hr⟩ := isErr_exists (validateModule_isErr m h)
  refine ⟨⟨r, hr⟩, ?_⟩
  intro s1 s2 ctx
  rw [executeInline_error s1 m ctx hr, executeInline_error s2 m ctx hr]

/-- Witness for claim C2 at the underscore attribute snippet. -/
theorem C2_validator_rejects_witness :
    moduleHasClaimViolation dunderCode = true ∧
    ((∃ r, validateModule dunderCode = Except.error r) ∧
     ∀ sem₁ sem₂ : ExecSem, ∀ ctx : PyContext,
       executeInline sem₁ dunderCode ctx = executeInline sem₂ dunderCode ctx) :=
  ⟨by decide, C2_validator_rejects dunderCode (by decide)⟩

/-- Claim C3 counterexample. The claim says that at the moment of a
validation rejection the limiter state is unchanged from its pre
invocation value. In _execute_inline the with statement enters
_resource_limits before ast.parse and validator.visit run, so on a
platform with rlimits the snippet referencing eval is rejected while the
three sandbox ceilings are in force, a state different from the pre
invocation one. -/
theorem C3_counterexample :
    isErr (validateModule denyNameCode) = true ∧
    limiterStateAtValidation false origEx ≠ origEx :=
  ⟨rfl, by decide⟩

/-- Claim C3 amended: a snippet referencing a deny listed name or an
underscore attribute is rejected before the snippet itself executes and
before any output is captured, but inside the resource limiter scope: at
the moment of rejection the three sandbox ceilings are in force, and the
finally block restores the pre invocation values before the call
returns. -/
theorem C3_amended (m : PyModule) (sem : ExecSem) (ctx : PyContext)
    (orig : RLimitState) (r : String)
    (h : validateModule m = Except.error r) :
    executeInline sem m ctx = (false, none, extErrPre ++ r) ∧
    limiterStateAtValidation false orig = runSets orig sandboxSets ∧
    runSets orig (resourceLimitsTrace false orig (ExecResult.exn r)) = orig := by
  refine ⟨executeInline_error sem m ctx h, rfl, ?_⟩
  cases orig
  rfl

/-- Witness for the amended claim C3 at the eval snippet. -/
theorem C3_amended_witness :
    validateModule denyNameCode = Except.error (accessMsg "eval") ∧
    (executeInline semRaise denyNameCode []
        = (false, none, extErrPre ++ accessMsg "eval") ∧
     limiterStateAtValidation false origEx = runSets origEx sandboxSets ∧
     runSets origEx (resourceLimitsTrace false origEx
        (ExecResult.exn (accessMsg "eval"))) = origEx) :=
  ⟨rfl, C3_amended denyNameCode semRaise [] origEx (accessMsg "eval") rfl⟩

/-- Claim C4: whatever the body outcome and the platform, the setrlimit
calls of one _resource_limits run, and of one whole execute_extension
invocation, fold the limiter state back to its pre invocation value: the
finally block restores the saved data segment, file size and open file
ceilings on every exit path, and the subprocess strategy never touches the
parent limits. -/
theorem C4_limits_restored (isWin32 : Bool) (orig : RLimitState)
    (body : ExecResult) :
    runSets orig (resourceLimitsTrace isWin32 orig body) = orig ∧
    runSets orig (invocationLimiterTrace isWin32 orig body) = orig := by
  constructor <;> cases isWin32 <;> cases body <;> cases orig <;> rfl

/-- Claim C5 counterexample. The claim says a deadline overrun surfaces
the same logical Timeout error on both paths, indistinguishably. The
inline path does return the alarm TimeoutError text; the subprocess path
never reaches its TimeoutExpired branch, because the generated wrapper is
a SyntaxError and the child exits immediately, well inside the wait
window: for a snippet whose execution would overrun the deadline the
subprocess outcome wraps the SyntaxError traceback and is not the timeout
message, whatever the traceback text, so no Timeout kind is surfaced on
that path at all, let alone one shared with the inline path. -/
theorem C5_counterexample :
    (executeInline semHang benignCode []).2.2 = inlineTimeoutMessage ∧
    (executeSubprocess semHang benignCode []).1 = false ∧
    (executeSubprocess semHang benignCode []).2.2
      ≠ subprocessTimeoutMessage := by
  refine ⟨rfl, rfl, ?_⟩
  exact extErr_wrap_ne_subprocess_timeout wrapperSyntaxStderr

/-- Claim C5 amended: a snippet that overruns the deadline yields
succeeded false and result none on both strategies, but only the inline
path surfaces a timeout error, the alarm TimeoutError text; the subprocess
path fails before its wait deadline could matter, with the Extension error
wrap of the wrapper SyntaxError traceback, and such a wrap differs from
both timeout messages whatever the traceback text, so no common Timeout
kind exists and the failure shapes of the two strategies differ. -/
theorem C5_amended (sem : ExecSem) (code : PyModule) (ctx : PyContext)
    (hv : validateModule code = Except.ok ())
    (hh : sem.run code ctx = ExecResult.hang) :
    executeInline sem code ctx = (false, none, inlineTimeoutMessage) ∧
    executeSubprocess sem code ctx
      = (false, none, extErrPre ++ wrapperSyntaxStderr) ∧
    (∀ s : String, extErrPre ++ s ≠ subprocessTimeoutMessage) ∧
    (∀ s : String, extErrPre ++ s ≠ inlineTimeoutMessage) := by
  refine ⟨?_, rfl, extErr_wrap_ne_subprocess_timeout, extErr_wrap_ne_inline_timeout⟩
  simp [executeInline, hv, hh]

/-- Witness for the amended claim C5 at the hanging oracle. -/
theorem C5_amended_witness :
    validateModule benignCode = Except.ok () ∧
    (executeInline semHang benignCode [] = (false, none, inlineTimeoutMessage) ∧
     executeSubprocess semHang benignCode []
       = (false, none, extErrPre ++ wrapperSyntaxStderr) ∧
     (∀ s : String, extErrPre ++ s ≠ subprocessTimeoutMessage) ∧
     (∀ s : String, extErrPre ++ s ≠ inlineTimeoutMessage)) :=
  ⟨rfl, C5_amended semHang benignCode [] rfl rfl⟩

/-- Claim C6 counterexample. The claim says capturedOutput is truncated to
the documented 1000 character cap and never longer. Both strategies
replace the print entry with the untruncated capture_print closure, so a
single print call of a 2000 character argument makes the returned captured
output 2000 characters long, exceeding the cap. -/
theorem C6_counterexample :
    (executeInline semBig benignCode []).1 = true ∧
    OUTPUT_CAP < ((executeInline semBig benignCode []).2.2).length := by
  constructor
  · rfl
  · have h2 : (executeInline semBig benignCode []).2.2 = bigArg := rfl
    have h3 : bigArg.length = 2000 := by
      show (List.replicate 2000 (Char.ofNat 97)).length = 2000
      rw [List.length_replicate]
    rw [h2, h3]
    decide

/-- Claim C6 amended: the _safe_print primitive itself truncates each call
to at most the 1000 character cap, eliding the excess with an ellipsis
marker rather than raising; but both execution paths install the uncapped
capture_print closure in its place, so the capturedOutput field of a
successful run is the unbounded newline join of the captured print
calls. -/
theorem C6_amended (args : List String) (sem : ExecSem) (code : PyModule)
    (ctx : PyContext) (r : Option JValue) (pr : List (List String))
    (hv : validateModule code = Except.ok ())
    (hr : sem.run code ctx = ExecResult.ok r pr) :
    (safePrint args).length ≤ OUTPUT_CAP ∧
    executeInline sem code ctx
      = (true, r, String.intercalate "\n" (pr.map capturePrint)) :=
  ⟨safePrint_length_le args, by simp [executeInline, hv, hr]⟩

/-- Witness for the amended claim C6 at the oversized print call. -/
theorem C6_amended_witness :
    validateModule benignCode = Except.ok () ∧
    ((safePrint [bigArg]).length ≤ OUTPUT_CAP ∧
     executeInline semBig benignCode []
       = (true, none, String.intercalate "\n" ([[bigArg]].map capturePrint))) :=
  ⟨rfl, C6_amended [bigArg] semBig benignCode [] none [[bigArg]] rfl rfl⟩

/-- Claim C7: every parent environment variable whose name contains key,
token, secret, password or credential case insensitively is absent from
the environment _execute_subprocess builds for the child, whatever the
parent environment and scratch directory: the scrub loop deletes every
variable whose uppercased name contains one of its six sensitive
substrings, a superset of the five claimed ones. -/
theorem C7_env_scrub (parent : List (String × String))
    (tmpdir name v : String) (h : credentialShapedClaim name = true) :
    (name, v) ∉ prepareChildEnv parent tmpdir := by
  intro hmem
  have hkeep := (List.mem_filter.mp hmem).2
  have hsens : isSensitiveName name = true := by
    unfold credentialShapedClaim at h
    unfold isSensitiveName
    rw [List.any_eq_true] at h ⊢
    obtain ⟨p, hp, hc⟩ := h
    refine ⟨p, ?_, hc⟩
    have hsub : ∀ x ∈ (["KEY", "TOKEN", "SECRET", "PASSWORD",
        "CREDENTIAL"] : List String), x ∈ SENSITIVE := by decide
    exact hsub p hp
  simp [hsens] at hkeep

/-- Witness for claim C7 at a concrete credential shaped variable. -/
theorem C7_env_scrub_witness :
    credentialShapedClaim "AWS_SECRET_ACCESS_KEY" = true ∧
    ("AWS_SECRET_ACCESS_KEY", "abc") ∉ prepareChildEnv envEx "/tmp/scratch" :=
  ⟨by decide,
   C7_env_scrub envEx "/tmp/scratch" "AWS_SECRET_ACCESS_KEY" "abc" (by decide)⟩

/-- Claim C8 counterexample. The claim says the capability namespace
contains no entry, not even a sentinel no op, for module import, dynamic
evaluation or the other blocked facilities, and limits type introspection
to type and isinstance style checks. The catalogue of
_create_safe_builtins in fact contains the keys eval and __import__ bound
to an explicit None sentinel, and binds getattr to the live host
getattr. -/
theorem C8_counterexample :
    List.lookup "eval" safeBuiltins = some none ∧
    List.lookup "__import__" safeBuiltins = some none ∧
    List.lookup "getattr" safeBuiltins = some (some "getattr") :=
  ⟨rfl, rfl, rfl⟩

/-- Claim C8 amended: every blocked facility name that appears in the
catalogue is bound to the None sentinel, never to a live host function;
the blocked names are present as keys rather than absent, and attribute
introspection through hasattr and getattr is additionally exposed. -/
theorem C8_amended (name : String) (h : name ∈ BLOCKED_SENTINELS) :
    List.lookup name safeBuiltins = some none := by
  fin_cases h <;> rfl

/-- Witness for the amended claim C8 at the eval sentinel. -/
theorem C8_amended_witness :
    "eval" ∈ BLOCKED_SENTINELS ∧
    List.lookup "eval" safeBuiltins = some none :=
  ⟨by decide, C8_amended "eval" (by decide)⟩

/-- Claim C9: running execute_extension twice on the same snippet, context
and execution semantics, the second run starting from the sandbox state
the first run left behind, produces outcomes with the same succeeded flag
and the same result value: the only mutable sandbox state is the
execution counter, which the outcome never depends on, and a side effect
free snippet is one whose execution semantics is the same function on both
runs. -/
theorem C9_idempotent (sem : ExecSem) (isWin32 : Bool) (st : SandboxState)
    (code : PyModule) (ctx : PyContext) :
    (executeExtensionSt sem isWin32 st code ctx).1.1
      = (executeExtensionSt sem isWin32
          (executeExtensionSt sem isWin32 st code ctx).2 code ctx).1.1 ∧
    (executeExtensionSt sem isWin32 st code ctx).1.2.1
      = (executeExtensionSt sem isWin32
          (executeExtensionSt sem isWin32 st code ctx).2 code ctx).1.2.1 := by
  cases isWin32 <;> exact ⟨rfl, rfl⟩

/-- Claim C10: whenever execute_extension fails, on either strategy, and
whenever the parent result channel maps any child observation, validation
failure, runtime error, timeout or unparsable child output, to a failing
outcome, the result component of the triple is none. -/
theorem C10_failed_result_none (sem : ExecSem) (isWin32 : Bool)
    (code : PyModule) (ctx : PyContext) (obs : ChildObs) :
    ((executeExtension sem isWin32 code ctx).1 = false →
      (executeExtension sem isWin32 code ctx).2.1 = none) ∧
    ((subprocessChannel obs).1 = false →
      (subprocessChannel obs).2.1 = none) := by
  refine ⟨?_, subprocessChannel_failed_none obs⟩
  intro h
  cases isWin32
  · rw [executeExtension_unix] at h ⊢
    exact subprocessChannel_failed_none _ h
  · rw [executeExtension_win] at h ⊢
    exact executeInline_failed_none sem code ctx h

/-- Witness for claim C10 at a raising run and an unparsable child
output. -/
theorem C10_failed_result_none_witness :
    (executeExtension semRaise false benignCode []).2.1 = none ∧
    (subprocessChannel (ChildObs.badStdout "not json")).2.1 = none :=
  ⟨(C10_failed_result_none semRaise false benignCode []
      (ChildObs.badStdout "not json")).1 rfl,
   (C10_failed_result_none semRaise false benignCode []
      (ChildObs.badStdout "not json")).2 rfl⟩
